import Mathlib

/-
Verification of the Cogman data-access layer (src/infra/mongo.go) against
its natural-language specification.

The MongoDB driver is an external collaborator: its calls are modelled as
environment parameters (the outcome each driver call would report), and the
layer's own logic — branching, error translation, and the session map — is
embedded faithfully from the Go source. Operations also return a trace of
the driver calls they issue, so that order and content of the calls are
observable in theorems.
-/

set_option autoImplicit false

namespace Infra

/-- Database name constant (`database = "cogman"` in src/infra/mongo.go). -/
def database : String := "cogman"

/-- Collection name constant (`tableTasks = "tasks"` in src/infra/mongo.go). -/
def tableTasks : String := "tasks"

/-- Name of the TTL index created by `SetTTL` (string literal `"TTL"` in SetTTL). -/
def ttlIndexName : String := "TTL"

/-- Field the TTL index is keyed on (string literal `"created_at"` in SetTTL). -/
def createdAtField : String := "created_at"

/-- Opaque handle for a driver session (`mongo.Session`). -/
structure Session where
  sid : Nat
deriving DecidableEq, Repr

/-- Error values observable from the layer. `noDocuments` is the driver's
`mongo.ErrNoDocuments` sentinel reported by a zero-match FindOne; `store n`
is any other opaque store/driver failure. -/
inductive Err where
  | noDocuments : Err
  | store : Nat → Err
  | notFound : Err
deriving DecidableEq, Repr

/-- Modelled from the spec: `ErrNotFound` is declared in this repository
outside src/infra/mongo.go (only its uses are in src). Per the spec it is the
layer's distinguished "zero documents matched" error (`NotFoundError`), a
sentinel of the layer distinct from raw store errors. -/
def ErrNotFound : Err := Err.notFound

/-- A database/collection pair, the target of every CRUD and index call
(`m.mcl.Database(database).Collection(tableTasks)`). -/
structure Collection where
  db : String
  name : String
deriving DecidableEq, Repr

/-- Options attached to an index model (`options.IndexOptions`); a field is
`none` when the corresponding setter was not called. -/
structure IndexOptions where
  name : Option String
  expireAfterSeconds : Option Int
  unique : Option Bool
  sparse : Option Bool
deriving DecidableEq, Repr

/-- An index model (`mongo.IndexModel`): keys with direction, plus options. -/
structure IndexModel where
  keys : List (String × Int)
  options : IndexOptions
deriving DecidableEq, Repr

/-- Find options passed to the store by List (`options.Find().SetSkip(...).SetLimit(...)`).
Go `int` is 64-bit here, so the `int64(...)` conversions are the identity on the value. -/
structure FindOptions where
  skip : Int
  limit : Int
deriving DecidableEq, Repr

/-- A driver call issued against the collection, recorded in operation traces. -/
inductive DriverCall where
  | dropOne : Collection → String → DriverCall
  | createOne : Collection → IndexModel → DriverCall
  | createMany : Collection → List IndexModel → DriverCall
  | dropAll : Collection → DriverCall
  | findOne : Collection → Nat → DriverCall
  | insertOne : Collection → Nat → DriverCall
  | replaceOne : Collection → Nat → Nat → DriverCall
  | updateOne : Collection → Nat → Nat → DriverCall
  | find : Collection → Nat → FindOptions → DriverCall
  | aggregate : Collection → Nat → DriverCall
deriving DecidableEq, Repr

/-- A session-level driver call issued by the transaction tracker. -/
inductive SessCall where
  | startSession : SessCall
  | startTxn : Session → SessCall
  | commitTxn : Session → SessCall
  | endSession : Session → SessCall
deriving DecidableEq, Repr

/-- Result of running a piece of Go code that may fault: `panics` marks a
runtime panic (such as a method call through a nil interface obtained from a
missing map key), `ok` a normal return. -/
inductive Outcome (α : Type) where
  | panics : Outcome α
  | ok : α → Outcome α
deriving DecidableEq, Repr

/-- The session map `sess map[string]mongo.Session`, as an association list
with at most one entry per key. -/
def SessMap : Type := List (String × Session)

/-- Go map read `m[k]`: the value bound to `k`, or `none` when `k` is absent
(in Go the zero value, a nil interface for `mongo.Session`). -/
def mapLookup : List (String × Session) → String → Option Session
  | [], _ => none
  | (k2, v2) :: rest, k => if k2 = k then some v2 else mapLookup rest k

/-- Go map write `m[k] = v`: overwrites the entry for `k` when present,
appends it otherwise. -/
def mapInsert : List (String × Session) → String → Session → List (String × Session)
  | [], k, v => [(k, v)]
  | (k2, v2) :: rest, k, v =>
    if k2 = k then (k, v) :: rest else (k2, v2) :: mapInsert rest k v

/-- Go `delete(m, k)`: removes the entry for `k` (no-op when absent). -/
def mapErase : List (String × Session) → String → List (String × Session)
  | [], _ => []
  | (k2, v2) :: rest, k =>
    if k2 = k then mapErase rest k else (k2, v2) :: mapErase rest k

/-- The `MongoClient` struct: URL, the TTL in seconds stored at construction
(`ExpDur`), and the session map. The opaque `mcl *mongo.Client` transport is
represented by the environment parameters of each operation. -/
structure MongoClient where
  URL : String
  ExpDur : Int
  sess : List (String × Session)
deriving DecidableEq, Repr

/-- Go `int32(x)` conversion: wrap into the signed 32-bit range. -/
def toInt32 (n : Int) : Int := (n + 2 ^ 31) % 2 ^ 32 - 2 ^ 31

/-- `NewMongoClient(url, ttl)`: connects (outcome `connectErr`), then returns
a client with `ExpDur = int32(ttl.Seconds())` and a fresh empty session map.
The Go `time.Duration` argument is modelled by its whole-second count. -/
def NewMongoClient (url : String) (ttlSeconds : Int) (connectErr : Option Err) :
    Except Err MongoClient :=
  match connectErr with
  | some e => Except.error e
  | none => Except.ok { URL := url, ExpDur := toInt32 ttlSeconds, sess := [] }

/-- Driver outcomes consumed by `StartTransaction`: the result of
`m.mcl.StartSession()` and, per session, of `sess.StartTransaction()`
(`none` meaning a nil error). -/
structure StartTxnEnv where
  startSession : Except Err Session
  startTxn : Session → Option Err

/-- `StartTransaction(id)` from src/infra/mongo.go: starts a session
(returning its error on failure), stores it in the map under `id`, then
returns the error of `m.sess[id].StartTransaction()` — the entry stays in
the map whatever that call reports. The read `m.sess[id]` is a Go map read;
a method call through a `none` result would panic. -/
def StartTransaction (m : MongoClient) (id : String) (env : StartTxnEnv) :
    Outcome (MongoClient × List SessCall × Option Err) :=
  match env.startSession with
  | Except.error e => Outcome.ok (m, [SessCall.startSession], some e)
  | Except.ok s =>
    match mapLookup (mapInsert m.sess id s) id with
    | none => Outcome.panics
    | some s2 =>
      Outcome.ok ({ m with sess := mapInsert m.sess id s },
        [SessCall.startSession, SessCall.startTxn s2], env.startTxn s2)

/-- Driver outcome consumed by `CommitTransaction`: per session, the error of
`sess.CommitTransaction(ctx)` (`none` meaning a nil error). -/
structure CommitEnv where
  commit : Session → Option Err

/-- `CommitTransaction(id, ctx)` from src/infra/mongo.go: reads `m.sess[id]`
and calls CommitTransaction on it — a panic when `id` is absent (nil
interface method call). On commit error, returns it with the map untouched;
on success, reads `m.sess[id]` again to call EndSession, deletes the entry
and returns nil. -/
def CommitTransaction (m : MongoClient) (id : String) (env : CommitEnv) :
    Outcome (MongoClient × List SessCall × Option Err) :=
  match mapLookup m.sess id with
  | none => Outcome.panics
  | some s =>
    match env.commit s with
    | some e => Outcome.ok (m, [SessCall.commitTxn s], some e)
    | none =>
      match mapLookup m.sess id with
      | none => Outcome.panics
      | some s2 =>
        Outcome.ok ({ m with sess := mapErase m.sess id },
          [SessCall.commitTxn s, SessCall.endSession s2], none)

/-- `Ping()`: forwards the outcome of `m.mcl.Ping(ctx, readpref.Primary())`. -/
def Ping (m : MongoClient) (pingErr : Option Err) : MongoClient × Option Err :=
  (m, pingErr)

/-- `Close()`: forwards the outcome of `m.mcl.Disconnect(ctx)`. -/
def Close (m : MongoClient) (disconnectErr : Option Err) : MongoClient × Option Err :=
  (m, disconnectErr)

/-- `Connect()`: calls `m.mcl.Connect(ctx)`, returns its error when non-nil,
nil otherwise. -/
def Connect (m : MongoClient) (connErr : Option Err) : MongoClient × Option Err :=
  match connErr with
  | some e => (m, some e)
  | none => (m, none)

/-- `getCollection()`: returns the fixed database/collection pair and a nil
error, unconditionally. -/
def getCollection (_m : MongoClient) : Except Err Collection :=
  Except.ok { db := database, name := tableTasks }

/-- The fixed collection every operation targets. -/
def taskCollection : Collection := { db := database, name := tableTasks }

/-- The index model built by `SetTTL`: ascending key on the creation
timestamp, name "TTL", expireAfterSeconds from the client's `ExpDur`. -/
def ttlModel (expDur : Int) : IndexModel :=
  { keys := [(createdAtField, 1)],
    options :=
      { name := some ttlIndexName, expireAfterSeconds := some expDur,
        unique := none, sparse := none } }

/-- Driver outcomes consumed by `SetTTL`: the (discarded) result of
`DropOne(ctx, "TTL")` and the result of `CreateOne(ctx, model)`. -/
structure SetTTLEnv where
  dropErr : Option Err
  createRes : Except Err String

/-- `SetTTL()` from src/infra/mongo.go: binds the collection, issues
`DropOne(ctx, "TTL")` ignoring its result, then returns the result of
`CreateOne(ctx, model)` with the TTL model built from `m.ExpDur`. -/
def SetTTL (m : MongoClient) (env : SetTTLEnv) :
    MongoClient × List DriverCall × Except Err String :=
  match getCollection m with
  | Except.error e => (m, [], Except.error e)
  | Except.ok col =>
    (m, [DriverCall.dropOne col ttlIndexName,
         DriverCall.createOne col (ttlModel m.ExpDur)],
      env.createRes)

/-- `IndexKey` struct: one key of an index descriptor. -/
structure IndexKey where
  Key : String
  Desc : Bool
deriving DecidableEq, Repr

/-- `Index` struct: a mongodb index descriptor. -/
structure Index where
  Keys : List IndexKey
  Name : String
  Unique : Bool
  Sparse : Bool
deriving DecidableEq, Repr

/-- `Index.model()` from src/infra/mongo.go: builds the keys by appending
`(k.Key, d)` with `d = -1` when `k.Desc` and `1` otherwise, sets the name
only when non-empty, and always sets the sparse and unique flags. -/
def Index.model (i : Index) : IndexModel :=
  { keys :=
      i.Keys.foldl
        (fun acc k => acc ++ [(k.Key, if k.Desc then (-1 : Int) else 1)]) [],
    options :=
      { name := if i.Name = ("") then none else some i.Name,
        expireAfterSeconds := none,
        sparse := some i.Sparse,
        unique := some i.Unique } }

/-- Driver outcome consumed by `EnsureIndices`: the error of
`CreateMany(ctx, models)` (`none` meaning a nil error). -/
structure EnsureEnv where
  createManyErr : Option Err

/-- `EnsureIndices(indices)` from src/infra/mongo.go: binds the collection,
builds one model per descriptor by appending `ind.model()` in a loop, and
issues a single `CreateMany`, returning its error. -/
def EnsureIndices (m : MongoClient) (indices : List Index) (env : EnsureEnv) :
    MongoClient × List DriverCall × Option Err :=
  match getCollection m with
  | Except.error e => (m, [], some e)
  | Except.ok col =>
    (m, [DriverCall.createMany col
          (indices.foldl (fun acc i => acc ++ [Index.model i]) [])],
      env.createManyErr)

/-- Driver outcome consumed by `DropIndices`: the error of `DropAll(ctx)`. -/
structure DropAllEnv where
  dropAllErr : Option Err

/-- `DropIndices()` from src/infra/mongo.go: binds the collection and
returns the error of `DropAll(ctx)`. -/
def DropIndices (m : MongoClient) (env : DropAllEnv) :
    MongoClient × List DriverCall × Option Err :=
  match getCollection m with
  | Except.error e => (m, [], some e)
  | Except.ok col => (m, [DriverCall.dropAll col], env.dropAllErr)

/-- What the store reports for a FindOne query: zero matching documents, a
failure, or a first matching document (opaque payload). -/
inductive FindReport where
  | zeroMatch : FindReport
  | failure : Nat → FindReport
  | matched : Nat → FindReport
deriving DecidableEq, Repr

/-- The `mongo.SingleResult` returned by FindOne: its `Err()` value and the
carried document. -/
structure SingleResult where
  err : Option Err
  doc : Nat
deriving DecidableEq, Repr

/-- Driver behavior of `FindOne`: when the store matches zero documents the
result carries `mongo.ErrNoDocuments`; other failures are carried as store
errors; a match carries the document with a nil error. -/
def findOneResult : FindReport → SingleResult
  | FindReport.zeroMatch => { err := some Err.noDocuments, doc := 0 }
  | FindReport.failure e => { err := some (Err.store e), doc := 0 }
  | FindReport.matched d => { err := none, doc := d }

/-- `Get(q)` from src/infra/mongo.go: binds the collection, issues FindOne,
and returns `resp.Err()` unchanged when non-nil, the result itself
otherwise. -/
def Get (m : MongoClient) (q : Nat) (rep : FindReport) :
    MongoClient × List DriverCall × Except Err SingleResult :=
  match getCollection m with
  | Except.error e => (m, [], Except.error e)
  | Except.ok col =>
    (m, [DriverCall.findOne col q],
      match (findOneResult rep).err with
      | some e => Except.error e
      | none => Except.ok (findOneResult rep))

/-- `Create(t)` from src/infra/mongo.go: binds the collection, issues
InsertOne and returns its error. -/
def Create (m : MongoClient) (doc : Nat) (insertErr : Option Err) :
    MongoClient × List DriverCall × Option Err :=
  match getCollection m with
  | Except.error e => (m, [], some e)
  | Except.ok col => (m, [DriverCall.insertOne col doc], insertErr)

/-- What the store reports for a ReplaceOne/UpdateOne call: a failure, or a
successful call with its `MatchedCount`. -/
inductive WriteReport where
  | failure : Nat → WriteReport
  | matched : Nat → WriteReport
deriving DecidableEq, Repr

/-- `Update(q, val)` from src/infra/mongo.go: binds the collection, issues
ReplaceOne; returns its error when non-nil, `ErrNotFound` when
`MatchedCount == 0`, nil otherwise. -/
def Update (m : MongoClient) (q val : Nat) (rep : WriteReport) :
    MongoClient × List DriverCall × Option Err :=
  match getCollection m with
  | Except.error e => (m, [], some e)
  | Except.ok col =>
    (m, [DriverCall.replaceOne col q val],
      match rep with
      | WriteReport.failure e => some (Err.store e)
      | WriteReport.matched n => if n = 0 then some ErrNotFound else none)

/-- `UpdatePartial(q, val)` from src/infra/mongo.go: binds the collection,
issues UpdateOne; returns its error when non-nil, `ErrNotFound` when
`MatchedCount == 0`, nil otherwise. -/
def UpdatePartial (m : MongoClient) (q val : Nat) (rep : WriteReport) :
    MongoClient × List DriverCall × Option Err :=
  match getCollection m with
  | Except.error e => (m, [], some e)
  | Except.ok col =>
    (m, [DriverCall.updateOne col q val],
      match rep with
      | WriteReport.failure e => some (Err.store e)
      | WriteReport.matched n => if n = 0 then some ErrNotFound else none)

/-- What the store reports for a Find/Aggregate call: a call failure, a
cursor whose `Err()` is non-nil, or a cursor over a list of documents. -/
inductive CursorReport where
  | failure : Nat → CursorReport
  | cursorErr : Nat → CursorReport
  | ok : List Nat → CursorReport
deriving DecidableEq, Repr

/-- `List(q, skip, limit)` from src/infra/mongo.go (named ListDocs here
because `List` is the Lean list type): binds the collection, issues Find
with options `SetSkip(int64(skip)).SetLimit(int64(limit))` — both values
passed through unchanged — and returns the cursor after checking the call
error and `cursor.Err()`. The store's response is a function of the options
actually submitted. -/
def ListDocs (m : MongoClient) (q : Nat) (skip limit : Int)
    (store : FindOptions → CursorReport) :
    MongoClient × List DriverCall × Except Err (List Nat) :=
  match getCollection m with
  | Except.error e => (m, [], Except.error e)
  | Except.ok col =>
    match store { skip := skip, limit := limit } with
    | CursorReport.failure e =>
      (m, [DriverCall.find col q { skip := skip, limit := limit }],
        Except.error (Err.store e))
    | CursorReport.cursorErr e =>
      (m, [DriverCall.find col q { skip := skip, limit := limit }],
        Except.error (Err.store e))
    | CursorReport.ok docs =>
      (m, [DriverCall.find col q { skip := skip, limit := limit }],
        Except.ok docs)

/-- Modelled from the spec: the underlying store's find convention on the
documents matching the query, in store order — the cursor skips `skip`
documents and, when `limit` is nonzero, is capped at `limit`; `limit = 0`
means the store default of no cap, not an empty result. -/
def storeFind (docs : List Nat) (opt : FindOptions) : CursorReport :=
  CursorReport.ok
    (if opt.limit = 0 then docs.drop opt.skip.toNat
     else (docs.drop opt.skip.toNat).take opt.limit.toNat)

/-- `Aggregate(q)` from src/infra/mongo.go: binds the collection, issues
Aggregate and returns the cursor after checking the call error and
`cursor.Err()`. -/
def Aggregate (m : MongoClient) (pipeline : Nat) (rep : CursorReport) :
    MongoClient × List DriverCall × Except Err (List Nat) :=
  match getCollection m with
  | Except.error e => (m, [], Except.error e)
  | Except.ok col =>
    match rep with
    | CursorReport.failure e =>
      (m, [DriverCall.aggregate col pipeline], Except.error (Err.store e))
    | CursorReport.cursorErr e =>
      (m, [DriverCall.aggregate col pipeline], Except.error (Err.store e))
    | CursorReport.ok docs =>
      (m, [DriverCall.aggregate col pipeline], Except.ok docs)

/-- URL of the concrete client used in witnesses and counterexamples. -/
def hostURL : String := "mongodb://h"

/-- A concrete client with an empty session map. -/
def clientEmpty : MongoClient := ⟨hostURL, 3600, []⟩

/-- A concrete session handle. -/
def sessFive : Session := ⟨5⟩

/-- A concrete client whose session map holds one Active id "a". -/
def clientA : MongoClient := ⟨hostURL, 3600, [(("a"), sessFive)]⟩

/-- The append-in-a-loop pattern used by `Index.model` and `EnsureIndices`
builds exactly the elementwise map of the input list. -/
theorem foldl_append_eq_map {α β : Type} (f : α → β) :
    ∀ (l : List α) (acc : List β),
      l.foldl (fun a x => a ++ [f x]) acc = acc ++ l.map f := by
  intro l
  induction l with
  | nil => intro acc; simp
  | cons x xs ih => intro acc; simp [ih]

/-- Claim C1: the spec requires `CommitTransaction` on an Absent id to fail
with a SessionError and leave the Session Map unchanged rather than fault;
the code instead reads the missing key (a nil session) and calls
CommitTransaction on it, which faults. Evaluated at the failing input: a
client with an empty session map and id "tx1". -/
theorem commitTransaction_absent_id_faults :
    CommitTransaction clientEmpty ("tx1") ⟨fun _ => none⟩ =
      Outcome.panics := rfl

/-- Claim C2: the spec requires that a failed `StartTransaction(id)` leave no
entry for `id` in the Session Map; the code inserts the session before
starting its transaction and keeps the entry when the start fails. Evaluated
at the failing input: empty map, session creation succeeds with session 0,
the transaction start on it fails with store error 7 — the call returns the
error yet the map holds the entry for "tx1". -/
theorem startTransaction_txnStart_failure_leaks_entry :
    StartTransaction clientEmpty ("tx1")
        ⟨Except.ok ⟨0⟩, fun _ => some (Err.store 7)⟩ =
      Outcome.ok
        (⟨hostURL, 3600, [(("tx1"), ⟨0⟩)]⟩,
          [SessCall.startSession, SessCall.startTxn ⟨0⟩],
          some (Err.store 7)) ∧
    mapLookup [(("tx1"), (⟨0⟩ : Session))] ("tx1") = some ⟨0⟩ := by
  constructor <;> rfl

/-- Claim C3: for an Active id (one mapped to session `s`), a failing commit
returns the commit error, does not end the session, and leaves the map
unchanged; a successful commit ends the session and removes the entry,
transitioning Active to Absent. -/
theorem commitTransaction_active_spec (m : MongoClient) (id : String)
    (s : Session) (env : CommitEnv) (h : mapLookup m.sess id = some s) :
    (∀ e, env.commit s = some e →
        CommitTransaction m id env =
          Outcome.ok (m, [SessCall.commitTxn s], some e)) ∧
    (env.commit s = none →
        CommitTransaction m id env =
          Outcome.ok ({ m with sess := mapErase m.sess id },
            [SessCall.commitTxn s, SessCall.endSession s], none)) := by
  constructor
  · intro e he
    simp only [CommitTransaction, h, he]
  · intro he
    simp only [CommitTransaction, h, he]

/-- Claim C3 witness: a concrete Active id, exercising both the failing and
the successful commit branch. -/
theorem commitTransaction_active_spec_witness :
    CommitTransaction clientA ("a") ⟨fun _ => none⟩ =
      Outcome.ok
        (⟨hostURL, 3600, mapErase clientA.sess ("a")⟩,
          [SessCall.commitTxn sessFive, SessCall.endSession sessFive],
          none) ∧
    CommitTransaction clientA ("a") ⟨fun _ => some (Err.store 9)⟩ =
      Outcome.ok
        (clientA, [SessCall.commitTxn sessFive], some (Err.store 9)) := by
  constructor
  · exact (commitTransaction_active_spec clientA ("a") sessFive
      ⟨fun _ => none⟩ rfl).2 rfl
  · exact (commitTransaction_active_spec clientA ("a") sessFive
      ⟨fun _ => some (Err.store 9)⟩ rfl).1 (Err.store 9) rfl

/-- Claim C4 counterexample: on a query the store reports as matching zero
documents, `Get` returns the store's raw `ErrNoDocuments` passed through
unchanged, which is not the layer's distinguished `ErrNotFound` sentinel —
so Get does not fail with the layer's NotFoundError. -/
theorem get_zero_match_counterexample :
    Get clientEmpty 0 FindReport.zeroMatch =
      (clientEmpty, [DriverCall.findOne taskCollection 0],
        Except.error Err.noDocuments) ∧
    Err.noDocuments ≠ ErrNotFound := by
  constructor
  · rfl
  · decide

/-- Claim C4 (amended): on a zero-match query `Get` fails with the store's
no-documents error passed through unchanged (never the layer's `ErrNotFound`
sentinel); on a failure it passes the store error through; on a query with
at least one match it returns the single result carrying the document. -/
theorem get_passthrough_spec :
    (∀ m q, Get m q FindReport.zeroMatch =
        (m, [DriverCall.findOne taskCollection q],
          Except.error Err.noDocuments)) ∧
    (∀ m q e, Get m q (FindReport.failure e) =
        (m, [DriverCall.findOne taskCollection q],
          Except.error (Err.store e))) ∧
    (∀ m q d, Get m q (FindReport.matched d) =
        (m, [DriverCall.findOne taskCollection q],
          Except.ok { err := none, doc := d })) ∧
    (∀ m q, (Get m q FindReport.zeroMatch).2.2 ≠
        Except.error ErrNotFound) := by
  refine ⟨fun m q => rfl, fun m q e => rfl, fun m q d => rfl, fun m q h => ?_⟩
  simp [Get, getCollection, findOneResult, ErrNotFound] at h

/-- Claim C5: `Update` (via ReplaceOne) and `UpdatePartial` (via UpdateOne)
return `ErrNotFound` exactly when the store reports zero matched documents,
succeed when at least one document matched, and pass other store failures
through. -/
theorem update_matchedCount_spec :
    (∀ m q v e, Update m q v (WriteReport.failure e) =
        (m, [DriverCall.replaceOne taskCollection q v], some (Err.store e))) ∧
    (∀ m q v, Update m q v (WriteReport.matched 0) =
        (m, [DriverCall.replaceOne taskCollection q v], some ErrNotFound)) ∧
    (∀ m q v n, Update m q v (WriteReport.matched (n + 1)) =
        (m, [DriverCall.replaceOne taskCollection q v], none)) ∧
    (∀ m q v rep, (Update m q v rep).2.2 = some ErrNotFound ↔
        rep = WriteReport.matched 0) ∧
    (∀ m q v e, UpdatePartial m q v (WriteReport.failure e) =
        (m, [DriverCall.updateOne taskCollection q v], some (Err.store e))) ∧
    (∀ m q v, UpdatePartial m q v (WriteReport.matched 0) =
        (m, [DriverCall.updateOne taskCollection q v], some ErrNotFound)) ∧
    (∀ m q v n, UpdatePartial m q v (WriteReport.matched (n + 1)) =
        (m, [DriverCall.updateOne taskCollection q v], none)) ∧
    (∀ m q v rep, ( UpdatePartial m q v rep).2.2 = some ErrNotFound ↔
        rep = WriteReport.matched 0) := by
  refine ⟨fun m q v e => rfl, fun m q v => rfl, fun m q v n => rfl, ?_,
    fun m q v e => rfl, fun m q v => rfl, fun m q v n => rfl, ?_⟩
  · intro m q v rep
    cases rep with
    | failure e => simp [Update, getCollection, ErrNotFound]
    | matched n =>
      cases n with
      | zero => simp [Update, getCollection]
      | succ k => simp [Update, getCollection, ErrNotFound]
  · intro m q v rep
    cases rep with
    | failure e => simp [UpdatePartial, getCollection, ErrNotFound]
    | matched n =>
      cases n with
      | zero => simp [UpdatePartial, getCollection]
      | succ k => simp [UpdatePartial, getCollection, ErrNotFound]

/-- Claim C6: `SetTTL` first issues a drop of the index named "TTL"
(whatever that drop would report is discarded: the result is invariant under
the drop outcome), then creates one ascending index on the creation
timestamp named "TTL" whose expireAfterSeconds is the client's `ExpDur`,
the TTL in seconds stored by `NewMongoClient`; its result is exactly the
creation result. -/
theorem setTTL_spec :
    (∀ m env, SetTTL m env =
        (m, [DriverCall.dropOne taskCollection ttlIndexName,
             DriverCall.createOne taskCollection (ttlModel m.ExpDur)],
          env.createRes)) ∧
    (∀ m d1 d2 c, SetTTL m ⟨d1, c⟩ = SetTTL m ⟨d2, c⟩) ∧
    (∀ e, (ttlModel e).keys = [(createdAtField, 1)]) ∧
    (∀ e, (ttlModel e).options.name = some ttlIndexName) ∧
    (∀ e, (ttlModel e).options.expireAfterSeconds = some e) ∧
    (∀ url ttl, NewMongoClient url ttl none =
        Except.ok ⟨url, toInt32 ttl, []⟩) := by
  exact ⟨fun m env => rfl, fun m d1 d2 c => rfl, fun e => rfl, fun e => rfl,
    fun e => rfl, fun url ttl => rfl⟩

/-- Claim C7: `EnsureIndices` builds exactly one model per descriptor —
keys mapped to direction -1 when the descending flag is set and 1 otherwise,
unique and sparse always applied, the explicit name applied only when
non-empty — and submits all models in one `CreateMany` batch, returning the
batch outcome. -/
theorem ensureIndices_spec :
    (∀ m idxs env, EnsureIndices m idxs env =
        (m, [DriverCall.createMany taskCollection (idxs.map Index.model)],
          env.createManyErr)) ∧
    (∀ idxs : List Index, (idxs.map Index.model).length = idxs.length) ∧
    (∀ i : Index, (Index.model i).keys =
        i.Keys.map (fun k => (k.Key, if k.Desc then (-1 : Int) else 1))) ∧
    (∀ i : Index, (Index.model i).options.unique = some i.Unique) ∧
    (∀ i : Index, (Index.model i).options.sparse = some i.Sparse) ∧
    (∀ i : Index, (Index.model i).options.name =
        if i.Name = ("") then none else some i.Name) ∧
    (∀ i : Index, (Index.model i).options.expireAfterSeconds = none) := by
  refine ⟨?_, fun idxs => by simp, ?_, fun i => rfl, fun i => rfl,
    fun i => rfl, fun i => rfl⟩
  · intro m idxs env
    simp only [EnsureIndices, getCollection]
    rw [foldl_append_eq_map Index.model idxs []]
    rfl
  · intro i
    simp only [Index.model]
    rw [foldl_append_eq_map (fun k : IndexKey =>
      (k.Key, if k.Desc then (-1 : Int) else 1)) i.Keys []]
    simp

/-- Claim C8: `ListDocs` consults the store only at the options built from
its own `skip` and `limit`, passed through unchanged (so its behavior at any
store function equals its behavior when the store is frozen at that single
point); against the modelled store convention the cursor holds the matching
documents after skipping `skip`, capped at `limit` when nonzero, and a
literal `limit = 0` yields the store default of every remaining document
rather than an empty result. -/
theorem listDocs_passthrough_spec :
    (∀ m q skip limit store, ListDocs m q skip limit store =
        ListDocs m q skip limit
          (fun _ => store { skip := skip, limit := limit })) ∧
    (∀ m q skip limit docs, ListDocs m q skip limit (storeFind docs) =
        (m, [DriverCall.find taskCollection q { skip := skip, limit := limit }],
          Except.ok (if limit = 0 then docs.drop skip.toNat
            else (docs.drop skip.toNat).take limit.toNat))) ∧
    (∀ m q skip docs, ListDocs m q skip 0 (storeFind docs) =
        (m, [DriverCall.find taskCollection q { skip := skip, limit := 0 }],
          Except.ok (docs.drop skip.toNat))) := by
  refine ⟨?_, ?_, ?_⟩
  · intro m q skip limit store
    rfl
  · intro m q skip limit docs
    rfl
  · intro m q skip docs
    simp [ListDocs, getCollection, storeFind, taskCollection]

/-- Claim C9: `getCollection` returns a nil error unconditionally, so in
every operation that calls it the collection-binding error branch is
unreachable: each operation always reaches the driver call of its success
branch (the branch that propagates a binding failure would issue no driver
call at all). -/
theorem getCollection_never_fails :
    (∀ m, getCollection m = Except.ok taskCollection) ∧
    (∀ m env, (SetTTL m env).2.1 =
        [DriverCall.dropOne taskCollection ttlIndexName,
         DriverCall.createOne taskCollection (ttlModel m.ExpDur)]) ∧
    (∀ m idxs env, (EnsureIndices m idxs env).2.1 =
        [DriverCall.createMany taskCollection (idxs.map Index.model)]) ∧
    (∀ m env, (DropIndices m env).2.1 = [DriverCall.dropAll taskCollection]) ∧
    (∀ m q rep, (Get m q rep).2.1 = [DriverCall.findOne taskCollection q]) ∧
    (∀ m d e, (Create m d e).2.1 = [DriverCall.insertOne taskCollection d]) ∧
    (∀ m q v rep, (Update m q v rep).2.1 =
        [DriverCall.replaceOne taskCollection q v]) ∧
    (∀ m q v rep, ( UpdatePartial m q v rep).2.1 =
        [DriverCall.updateOne taskCollection q v]) ∧
    (∀ m q skip limit store, (ListDocs m q skip limit store).2.1 =
        [DriverCall.find taskCollection q { skip := skip, limit := limit }]) ∧
    (∀ m p rep, (Aggregate m p rep).2.1 =
        [DriverCall.aggregate taskCollection p]) := by
  refine ⟨fun m => rfl, fun m env => rfl, ?_, fun m env => rfl,
    fun m q rep => rfl, fun m d e => rfl, fun m q v rep => rfl,
    fun m q v rep => rfl, ?_, ?_⟩
  · intro m idxs env
    simp only [EnsureIndices, getCollection]
    rw [foldl_append_eq_map Index.model idxs []]
    rfl
  · intro m q skip limit store
    cases h : store { skip := skip, limit := limit } <;>
      simp [ListDocs, getCollection, taskCollection, h]
  · intro m p rep
    cases rep <;> rfl

/-- Claim C10: only the transaction tracker mutates the client — every
connection, index, and CRUD operation returns the client unchanged (session
map, URL and TTL all preserved), and `NewMongoClient` always starts from an
empty session map. -/
theorem frame_sessionMap_spec :
    (∀ url ttl, NewMongoClient url ttl none =
        Except.ok ⟨url, toInt32 ttl, []⟩) ∧
    (∀ url ttl e, NewMongoClient url ttl (some e) = Except.error e) ∧
    (∀ m e, (Connect m e).1 = m) ∧
    (∀ m e, (Ping m e).1 = m) ∧
    (∀ m e, (Close m e).1 = m) ∧
    (∀ m env, (SetTTL m env).1 = m) ∧
    (∀ m idxs env, (EnsureIndices m idxs env).1 = m) ∧
    (∀ m env, (DropIndices m env).1 = m) ∧
    (∀ m q rep, (Get m q rep).1 = m) ∧
    (∀ m d e, (Create m d e).1 = m) ∧
    (∀ m q v rep, (Update m q v rep).1 = m) ∧
    (∀ m q v rep, ( UpdatePartial m q v rep).1 = m) ∧
    (∀ m q skip limit store, (ListDocs m q skip limit store).1 = m) ∧
    (∀ m p rep, (Aggregate m p rep).1 = m) := by
  refine ⟨fun url ttl => rfl, fun url ttl e => rfl, ?_, fun m e => rfl,
    fun m e => rfl, fun m env => rfl, fun m idxs env => rfl,
    fun m env => rfl, fun m q rep => rfl, fun m d e => rfl,
    fun m q v rep => rfl, fun m q v rep => rfl, ?_, ?_⟩
  · intro m e
    cases e <;> rfl
  · intro m q skip limit store
    cases h : store { skip := skip, limit := limit } <;>
      simp [ListDocs, getCollection, taskCollection, h]
  · intro m p rep
    cases rep <;> rfl

end Infra
